import Mathlib

/-!
Shallow embedding of `homework.py` (a Telegram homework-status polling bot).

Python values flowing through the program (JSON payloads, dict fields,
messages) are modelled by `JValue`; Python `None` and JSON `null` are the
single constructor `jnull` (they are the same object in Python).  Exceptions
are modelled by the `Exc` type, fallible code by `Except Exc _`.  The
behaviour of the two network collaborators (the HTTP GET and the Telegram
`bot.send_message`) is supplied per call as an oracle value (`HttpResult`,
`SendOutcome`).
-/

namespace HomeworkBot

/-- A Python/JSON value as it appears in the program. -/
inductive JValue where
  | jnull
  | jnum (n : Int)
  | jstr (s : String)
  | jlist (xs : List JValue)
  | jdict (kvs : List (String × JValue))
deriving Repr

mutual

/-- Structural (Python `==`) equality on values, decidably. -/
def JValue.decEq : (a b : JValue) → Decidable (a = b)
  | .jnull, .jnull => isTrue rfl
  | .jnull, .jnum _ => isFalse (fun h => nomatch h)
  | .jnull, .jstr _ => isFalse (fun h => nomatch h)
  | .jnull, .jlist _ => isFalse (fun h => nomatch h)
  | .jnull, .jdict _ => isFalse (fun h => nomatch h)
  | .jnum _, .jnull => isFalse (fun h => nomatch h)
  | .jnum a, .jnum b =>
    match Int.decEq a b with
    | isTrue h => isTrue (by rw [h])
    | isFalse h => isFalse (fun hh => h (by injection hh))
  | .jnum _, .jstr _ => isFalse (fun h => nomatch h)
  | .jnum _, .jlist _ => isFalse (fun h => nomatch h)
  | .jnum _, .jdict _ => isFalse (fun h => nomatch h)
  | .jstr _, .jnull => isFalse (fun h => nomatch h)
  | .jstr _, .jnum _ => isFalse (fun h => nomatch h)
  | .jstr a, .jstr b =>
    match String.decEq a b with
    | isTrue h => isTrue (by rw [h])
    | isFalse h => isFalse (fun hh => h (by injection hh))
  | .jstr _, .jlist _ => isFalse (fun h => nomatch h)
  | .jstr _, .jdict _ => isFalse (fun h => nomatch h)
  | .jlist _, .jnull => isFalse (fun h => nomatch h)
  | .jlist _, .jnum _ => isFalse (fun h => nomatch h)
  | .jlist _, .jstr _ => isFalse (fun h => nomatch h)
  | .jlist xs, .jlist ys =>
    match JValue.decEqList xs ys with
    | isTrue h => isTrue (by rw [h])
    | isFalse h => isFalse (fun hh => h (by injection hh))
  | .jlist _, .jdict _ => isFalse (fun h => nomatch h)
  | .jdict _, .jnull => isFalse (fun h => nomatch h)
  | .jdict _, .jnum _ => isFalse (fun h => nomatch h)
  | .jdict _, .jstr _ => isFalse (fun h => nomatch h)
  | .jdict _, .jlist _ => isFalse (fun h => nomatch h)
  | .jdict xs, .jdict ys =>
    match JValue.decEqFields xs ys with
    | isTrue h => isTrue (by rw [h])
    | isFalse h => isFalse (fun hh => h (by injection hh))

/-- Decidable equality of value lists. -/
def JValue.decEqList : (xs ys : List JValue) → Decidable (xs = ys)
  | [], [] => isTrue rfl
  | [], _ :: _ => isFalse (fun h => nomatch h)
  | _ :: _, [] => isFalse (fun h => nomatch h)
  | x :: xs, y :: ys =>
    match JValue.decEq x y, JValue.decEqList xs ys with
    | isTrue h1, isTrue h2 => isTrue (by rw [h1, h2])
    | isFalse h1, _ => isFalse (fun h => h1 (by injection h))
    | isTrue _, isFalse h2 => isFalse (fun h => h2 (by injection h))

/-- Decidable equality of key-value lists. -/
def JValue.decEqFields : (xs ys : List (String × JValue)) → Decidable (xs = ys)
  | [], [] => isTrue rfl
  | [], _ :: _ => isFalse (fun h => nomatch h)
  | _ :: _, [] => isFalse (fun h => nomatch h)
  | (k1, v1) :: xs, (k2, v2) :: ys =>
    match String.decEq k1 k2, JValue.decEq v1 v2, JValue.decEqFields xs ys with
    | isTrue hk, isTrue hv, isTrue ht => isTrue (by rw [hk, hv, ht])
    | isFalse hk, _, _ =>
      isFalse (fun h => hk (by injection h with h1 h2; injection h1))
    | isTrue _, isFalse hv, _ =>
      isFalse (fun h => hv (by injection h with h1 h2; injection h1))
    | isTrue _, isTrue _, isFalse ht =>
      isFalse (fun h => ht (by injection h))

end

instance : DecidableEq JValue := JValue.decEq

/-- Exception classes the embedded program can raise.
`connectionError`, `invalidResponseCode`, `emptyResponseFromAPI` and
`telegramError` are the classes of the repository's `exceptions` module;
`typeError`, `valueError`, `attributeError` are Python builtins;
`otherError` stands for any other `Exception` subclass. -/
inductive Exc where
  | connectionError (m : String)
  | invalidResponseCode (m : String)
  | emptyResponseFromAPI (m : String)
  | telegramError (m : String)
  | typeError (m : String)
  | valueError (m : String)
  | attributeError (m : String)
  | otherError (m : String)
deriving DecidableEq, Repr

/-- `str(error)`: the message carried by an exception. -/
def Exc.msg : Exc → String
  | .connectionError m => m
  | .invalidResponseCode m => m
  | .emptyResponseFromAPI m => m
  | .telegramError m => m
  | .typeError m => m
  | .valueError m => m
  | .attributeError m => m
  | .otherError m => m

/-- Python truthiness of a value (`if not homework_name`, `if new_homeworks`,
`... if homework else ...`). -/
def JValue.truthy : JValue → Bool
  | .jnull => false
  | .jnum n => n != 0
  | .jstr s => !s.isEmpty
  | .jlist xs => !xs.isEmpty
  | .jdict kvs => !kvs.isEmpty

/-- Python `str()` of a value, as used inside f-strings. -/
def JValue.pyStr : JValue → String
  | .jnull => "None"
  | .jnum n => toString n
  | .jstr s => s
  | .jlist _ => "[...]"
  | .jdict _ => "{...}"

/-- `v.get(k)`: dictionary lookup returning `None` (here `jnull`) for a
missing key; on a non-dict value Python raises `AttributeError`. -/
def pyGet (v : JValue) (k : String) : Except Exc JValue :=
  match v with
  | .jdict kvs =>
    match kvs.lookup k with
    | some w => .ok w
    | none => .ok .jnull
  | _ => .error (.attributeError "объект не имеет атрибута get")

/-- `k in v` for a dict `v`: key membership. -/
def JValue.hasKey (v : JValue) (k : String) : Bool :=
  match v with
  | .jdict kvs => (kvs.lookup k).isSome
  | _ => false

/-- `HOMEWORK_VERDICTS` (homework.py lines 25-29). -/
def HOMEWORK_VERDICTS : List (String × String) :=
  [("approved", "Работа проверена: ревьюеру всё понравилось. Ура!"),
   ("reviewing", "Работа взята на проверку ревьюером."),
   ("rejected", "Работа проверена: у ревьюера есть замечания.")]

/-- `status not in HOMEWORK_VERDICTS`: Python `in` on a dict checks key
membership; an unhashable value (list, dict) raises `TypeError`. -/
def dictContains (tbl : List (String × String)) (v : JValue) : Except Exc Bool :=
  match v with
  | .jstr s => .ok (tbl.lookup s).isSome
  | .jnull => .ok false
  | .jnum _ => .ok false
  | _ => .error (.typeError "unhashable type")

/-- `check_response` (homework.py lines 91-112): type-check the response,
require the keys `homeworks` and `current_date`, require the `homeworks`
value to be a list, and return it. -/
def check_response (response : JValue) : Except Exc (List JValue) :=
  match response with
  | .jdict kvs =>
    if (kvs.lookup "homeworks").isNone || (kvs.lookup "current_date").isNone then
      .error (.emptyResponseFromAPI "Пустой ответ от API")
    else
      match kvs.lookup "homeworks" with
      | some .jnull => .error (.typeError "Homeworks не является списком")
      | some (.jlist hws) => .ok hws
      | _ => .error (.typeError "Homeworks не является списком")
  | _ => .error (.typeError "Ошибка в типе ответа API")

/-- `parse_status` (homework.py lines 115-135): build the notification
string for one homework record, or raise `ValueError`. -/
def parse_status (homework : JValue) : Except Exc String :=
  match pyGet homework "homework_name" with
  | .error e => .error e
  | .ok homework_name =>
    match pyGet homework "status" with
    | .error e => .error e
    | .ok status =>
      if !homework_name.truthy then
        .error (.valueError "Ответ API не содержит ключ \"homework_name\"")
      else if !status.truthy then
        .error (.valueError ("Статус работы \"" ++ homework_name.pyStr
          ++ "\" не был возвращен API"))
      else
        match dictContains HOMEWORK_VERDICTS status with
        | .error e => .error e
        | .ok false =>
          .error (.valueError ("Статус работы \"" ++ homework_name.pyStr
            ++ "\" неизвестен: " ++ status.pyStr))
        | .ok true =>
          match status with
          | .jstr s =>
            match HOMEWORK_VERDICTS.lookup s with
            | some verdict =>
              .ok ("Изменился статус проверки работы \"" ++ homework_name.pyStr
                ++ "\". " ++ verdict)
            | none => .error (.valueError "недостижимо: статус есть в словаре")
          | _ => .error (.valueError "недостижимо: статус есть в словаре")

/-- One HTTP response as seen by `requests.get`: status code, reason phrase,
raw body text, and the result of `.json()` (which may raise a parse error). -/
structure HttpResponse where
  status_code : Nat
  reason : String
  text : String
  json : Except Unit JValue
deriving Repr

/-- Outcome of the `requests.get` call itself: a response, or a
transport-level exception (DNS, timeout, connection reset). -/
inductive HttpResult where
  | response (r : HttpResponse)
  | transportError (m : String)
deriving Repr

/-- The message of the `InvalidResponseCode` raised for a non-200 status
(homework.py lines 77-81): it carries the status code, the reason phrase and
the raw body text. -/
def invalid_code_msg (r : HttpResponse) : String :=
  "Не удалось получить ответ API, ошибка: " ++ toString r.status_code
    ++ "причина: " ++ r.reason ++ "текст: " ++ r.text

/-- The message of the `ConnectionError` raised by the blanket handler
(homework.py lines 85-88): it carries the request parameters.  The URL is the
fixed `ENDPOINT`; the `Authorization` header holds the opaque environment
token, rendered here as a placeholder. -/
def connection_error_msg (timestamp : Nat) : String :=
  "Не верный код ответа параметра запроса: "
    ++ "url = https://practicum.yandex.ru/api/user_api/homework_statuses/,"
    ++ "headers = Authorization OAuth <PRACTICUM_TOKEN>,"
    ++ "params = from_date " ++ toString timestamp

/-- The body of `get_api_answer`'s `try` block (homework.py lines 68-82):
issue the GET, raise `InvalidResponseCode` on a non-200 status, otherwise
return the parsed JSON (whose parse failure is a raised exception). -/
def api_try_block (http : HttpResult) : Except Exc JValue :=
  match http with
  | .transportError m => .error (.otherError m)
  | .response r =>
    if r.status_code != 200 then
      .error (.invalidResponseCode (invalid_code_msg r))
    else
      match r.json with
      | .ok v => .ok v
      | .error _ => .error (.otherError "JSONDecodeError")

/-- `get_api_answer` (homework.py lines 60-88): the `try` block above wrapped
in `except Exception`, which re-raises every failure — including the
`InvalidResponseCode` raised inside the same `try` — as `ConnectionError`. -/
def get_api_answer (http : HttpResult) (timestamp : Nat) : Except Exc JValue :=
  match api_try_block http with
  | .ok v => .ok v
  | .error _ => .error (.connectionError (connection_error_msg timestamp))

/-- Behaviour of one `bot.send_message` call: success, an exception of the
class `exceptions.TelegramError`, or an exception of any other class. -/
inductive SendOutcome where
  | ok
  | telegramError (m : String)
  | otherError (m : String)
deriving DecidableEq, Repr

/-- `send_message` (homework.py lines 37-57), the Notifier: the send is
wrapped in `except exceptions.TelegramError` AND `except Exception`, so no
exception ever escapes; the returned value is the exception escaping the
call (always `none`). -/
def send_message (outcome : SendOutcome) : Option Exc :=
  match outcome with
  | .ok => none
  | .telegramError _ => none
  | .otherError _ => none

/-- `handle_error` (homework.py lines 138-143): the send is wrapped only in
`except exceptions.TelegramError`; an exception of any other class escapes
the call.  The returned value is the exception escaping the call. -/
def handle_error (outcome : SendOutcome) : Option Exc :=
  match outcome with
  | .ok => none
  | .telegramError _ => none
  | .otherError m => some (.otherError m)

/-- The loop's report record `{'name': ..., 'output': ...}`. -/
structure Report where
  name : JValue
  output : JValue
deriving DecidableEq, Repr

/-- The report as initialised at startup (homework.py lines 159-163). -/
def initial_report : Report := ⟨.jstr "", .jstr ""⟩

/-- Lines 170-177 of homework.py: update `report` in place from the
validated homeworks list and bind the `homework` variable (`jnull` stands
for Python `None` in the empty branch).  On an exception the error carries
the report state at raise time, mirroring the in-place mutation order
(`report['name']` is assigned before `report['output']` is computed). -/
def update_report (report : Report) (new_homeworks : List JValue) :
    Except (Exc × Report) (Report × JValue) :=
  match new_homeworks with
  | [] => .ok (⟨report.name, .jstr "Нет новых статусов."⟩, .jnull)
  | hw :: _ =>
    match pyGet hw "homework_name" with
    | .error e => .error (e, report)
    | .ok namev =>
      match pyGet hw "status" with
      | .error e => .error (e, ⟨namev, report.output⟩)
      | .ok statusv => .ok (⟨namev, statusv⟩, hw)

/-- The expression `parse_status(homework) if homework else report['output']`
(homework.py line 180): the message value handed to the Notifier, or the
exception `parse_status` raises. -/
def build_send (homework : JValue) (report : Report) : Except Exc JValue :=
  if homework.truthy then
    match parse_status homework with
    | .ok s => .ok (.jstr s)
    | .error e => .error e
  else
    .ok report.output

/-- The `try` block of one loop iteration (homework.py lines 166-184).
Returns the normal outcome `(report, prev_report, messages sent via the
Notifier)`, or the raised exception together with the report state and the
Notifier messages already sent at raise time. -/
def cycle_body (report prev_report : Report) (http : HttpResult) (now : Nat)
    (notifyO : SendOutcome) :
    Except (Exc × Report × List JValue) (Report × Report × List JValue) :=
  match get_api_answer http now with
  | .error e => .error (e, report, [])
  | .ok response =>
    match check_response response with
    | .error e => .error (e, report, [])
    | .ok new_homeworks =>
      match update_report report new_homeworks with
      | .error (e, r) => .error (e, r, [])
      | .ok (r, homework) =>
        if r ≠ prev_report then
          match build_send homework r with
          | .error e => .error (e, r, [])
          | .ok msg =>
            match send_message notifyO with
            | some e => .error (e, r, [msg])
            | none => .ok (r, r, [msg])
        else
          .ok (r, prev_report, [])

/-- Observable outcome of one loop iteration. -/
structure CycleResult where
  report : Report
  prev_report : Report
  sent : List JValue
  handler_msg : Option String
  escaped : Option Exc
deriving DecidableEq, Repr

/-- One full iteration of the `while True` loop (homework.py lines 165-190):
the `try` block, then `except Exception` invoking `handle_error`; an
exception escaping `handle_error` escapes the iteration (after the `finally`
sleep) and terminates the loop. -/
def run_cycle (report prev_report : Report) (http : HttpResult) (now : Nat)
    (notifyO errO : SendOutcome) : CycleResult :=
  match cycle_body report prev_report http now notifyO with
  | .ok (r, p, sent) => ⟨r, p, sent, none, none⟩
  | .error (e, r, sent) =>
    ⟨r, prev_report, sent, some ("Сбой в работе программы: " ++ e.msg),
      handle_error errO⟩

/-- The oracle inputs consumed by one iteration: the HTTP world, the value
of `int(time.time())` at the top of the iteration, and the behaviour of the
two `bot.send_message` calls that may occur. -/
structure CycleInput where
  http : HttpResult
  now : Nat
  notifyO : SendOutcome
  errO : SendOutcome
deriving Repr

/-- The `while True` loop over a finite prefix of oracle inputs: the trace
of iterations, each paired with the timestamp passed to `get_api_answer`
that iteration.  The trace stops early when an exception escapes an
iteration (the process dies). -/
def run_loop (report prev_report : Report) : List CycleInput → List (Nat × CycleResult)
  | [] => []
  | i :: rest =>
    let c := run_cycle report prev_report i.http i.now i.notifyO i.errO
    (i.now, c) ::
      (match c.escaped with
       | some _ => []
       | none => run_loop c.report c.prev_report rest)

/-- Whether an exception is of the class `exceptions.InvalidResponseCode`. -/
def Exc.isInvalidResponseCode : Exc → Bool
  | .invalidResponseCode _ => true
  | _ => false

/-- The Notifier `send_message` never lets an exception escape: both a
`TelegramError` and any other exception are caught and logged. -/
theorem send_message_eq_none (o : SendOutcome) : send_message o = none := by
  cases o <;> rfl

/-- A well-formed 200 response with both required keys and no homeworks. -/
def empty_ok_response : JValue :=
  .jdict [("homeworks", .jlist []), ("current_date", .jnum 1)]

/-- An HTTP world returning the empty 200 response above. -/
def http_empty_ok : HttpResult :=
  .response ⟨200, "OK", "", .ok empty_ok_response⟩

/-- C10: for every HTTP behaviour (transport exception, JSON parse error, or
non-200 status) and every timestamp, the only exception `get_api_answer` can
raise is `exceptions.ConnectionError`: every error it returns is a
`connectionError` carrying the request parameters. -/
theorem C10_only_connectionError (http : HttpResult) (t : Nat) (e : Exc)
    (h : get_api_answer http t = .error e) :
    e = .connectionError (connection_error_msg t) := by
  unfold get_api_answer at h
  cases hb : api_try_block http <;> rw [hb] at h
  · exact (Except.error.injEq _ _).mp h.symm |>.symm ▸ rfl
  · cases h

theorem C10_witness :
    get_api_answer (.transportError "нет сети") 5
      = .error (.connectionError (connection_error_msg 5)) :=
  C10_only_connectionError (.transportError "нет сети") 5
    (.connectionError (connection_error_msg 5)) rfl ▸ rfl

/-- C1 counterexample: when the transport succeeds but the status is 503,
the call does NOT fail with `InvalidResponseCode`: the blanket
`except Exception` inside `get_api_answer` converts the internally raised
`InvalidResponseCode` into a `ConnectionError`. -/
theorem C1_counterexample :
    get_api_answer (.response ⟨503, "Service Unavailable", "занято", .ok .jnull⟩) 0
      = .error (.connectionError (connection_error_msg 0))
    ∧ Exc.isInvalidResponseCode (.connectionError (connection_error_msg 0)) = false :=
  ⟨rfl, rfl⟩

/-- C1 amended: on a non-200 status the `try` block raises
`InvalidResponseCode` carrying the status code, reason phrase and raw body
text, but the surrounding `except Exception` converts it, so the call as a
whole fails with `ConnectionError` carrying the request parameters. -/
theorem C1_amended (r : HttpResponse) (h : r.status_code ≠ 200) :
    api_try_block (.response r) = .error (.invalidResponseCode (invalid_code_msg r))
    ∧ ∀ t, get_api_answer (.response r) t
        = .error (.connectionError (connection_error_msg t)) := by
  have hb : api_try_block (.response r)
      = .error (.invalidResponseCode (invalid_code_msg r)) := by
    unfold api_try_block
    simp [bne_iff_ne, h]
  exact ⟨hb, fun t => by unfold get_api_answer; rw [hb]⟩

theorem C1_amended_witness :
    api_try_block (.response ⟨503, "Service Unavailable", "занято", .ok .jnull⟩)
      = .error (.invalidResponseCode
          (invalid_code_msg ⟨503, "Service Unavailable", "занято", .ok .jnull⟩))
    ∧ get_api_answer (.response ⟨503, "Service Unavailable", "занято", .ok .jnull⟩) 7
        = .error (.connectionError (connection_error_msg 7)) :=
  ⟨(C1_amended ⟨503, "Service Unavailable", "занято", .ok .jnull⟩ (by decide)).1,
   (C1_amended ⟨503, "Service Unavailable", "занято", .ok .jnull⟩ (by decide)).2 7⟩

/-- C4 counterexample: with an empty homeworks list the `name` field is NOT
treated as unset — it keeps whatever it held from previous cycles (here
`"hw1"`); only `output` is overwritten with the sentinel. -/
theorem C4_counterexample :
    update_report ⟨.jstr "hw1", .jstr "approved"⟩ []
      = .ok (⟨.jstr "hw1", .jstr "Нет новых статусов."⟩, .jnull)
    ∧ JValue.jstr "hw1" ≠ .jstr "" :=
  ⟨rfl, by decide⟩

/-- C4 amended: in every cycle whose validated homeworks list is empty, the
pending report's `output` is set to the fixed sentinel text and its `name`
is left unchanged from previous cycles (the `homework` variable becomes
`None`). -/
theorem C4_amended (report : Report) :
    update_report report []
      = .ok (⟨report.name, .jstr "Нет новых статусов."⟩, .jnull) :=
  rfl

/-- C5: a mapping response missing the key `homeworks` or the key
`current_date` makes `check_response` fail with `EmptyResponseFromAPI`
(never a `TypeError`), while a mapping with both keys and an empty
homeworks list is not an error. -/
theorem C5_missing_keys (kvs : List (String × JValue)) :
    ((kvs.lookup "homeworks").isNone = true ∨ (kvs.lookup "current_date").isNone = true →
      check_response (.jdict kvs) = .error (.emptyResponseFromAPI "Пустой ответ от API"))
    ∧ (kvs.lookup "homeworks" = some (.jlist []) →
        (kvs.lookup "current_date").isSome = true →
        check_response (.jdict kvs) = .ok []) := by
  constructor
  · intro h
    unfold check_response
    rcases h with h | h <;> simp [h]
  · intro h1 h2
    obtain ⟨v, hv⟩ := Option.isSome_iff_exists.mp h2
    unfold check_response
    simp [h1, hv]

theorem C5_witness :
    check_response (.jdict [("current_date", .jnum 1)])
      = .error (.emptyResponseFromAPI "Пустой ответ от API")
    ∧ check_response (.jdict [("homeworks", .jlist []), ("current_date", .jnum 1)])
        = .ok [] :=
  ⟨(C5_missing_keys [("current_date", .jnum 1)]).1 (Or.inl rfl),
   (C5_missing_keys [("homeworks", .jlist []), ("current_date", .jnum 1)]).2
     rfl rfl⟩

/-- C6: for a mapping containing both `homeworks` and `current_date`,
`check_response` fails with a `TypeError` when the homeworks value is not a
list (including `null`), and returns exactly the list unchanged when it is
one. -/
theorem C6_homeworks_shape (kvs : List (String × JValue)) (v : JValue)
    (hv : kvs.lookup "homeworks" = some v)
    (hc : (kvs.lookup "current_date").isSome = true) :
    check_response (.jdict kvs)
      = (match v with
         | .jlist hws => .ok hws
         | _ => .error (.typeError "Homeworks не является списком")) := by
  obtain ⟨w, hw⟩ := Option.isSome_iff_exists.mp hc
  unfold check_response
  cases v <;> simp [hv, hw]

theorem C6_witness :
    check_response (.jdict [("homeworks", .jnull), ("current_date", .jnum 1)])
      = .error (.typeError "Homeworks не является списком")
    ∧ check_response (.jdict [("homeworks", .jnum 3), ("current_date", .jnum 1)])
        = .error (.typeError "Homeworks не является списком")
    ∧ check_response (.jdict [("homeworks", .jlist [.jnum 9]), ("current_date", .jnum 1)])
        = .ok [.jnum 9] :=
  ⟨C6_homeworks_shape [("homeworks", .jnull), ("current_date", .jnum 1)] .jnull rfl rfl,
   C6_homeworks_shape [("homeworks", .jnum 3), ("current_date", .jnum 1)] (.jnum 3) rfl rfl,
   C6_homeworks_shape [("homeworks", .jlist [.jnum 9]), ("current_date", .jnum 1)]
     (.jlist [.jnum 9]) rfl rfl⟩

/-- C9: for every submission with a non-empty name and a status that is a
key of `HOMEWORK_VERDICTS`, `parse_status` returns exactly the string
`Изменился статус проверки работы "..."` followed by the verdict text. -/
theorem C9_parse_status (name status verdict : String)
    (hn : name ≠ "") (hs : HOMEWORK_VERDICTS.lookup status = some verdict) :
    parse_status (.jdict [("homework_name", .jstr name), ("status", .jstr status)])
      = .ok ("Изменился статус проверки работы \"" ++ name ++ "\". " ++ verdict) := by
  have hne : name.isEmpty = false := by
    cases hstr : name.isEmpty
    · rfl
    · exact absurd ((String.isEmpty_iff name).mp hstr) hn
  have hkey : status = "approved" ∨ status = "reviewing" ∨ status = "rejected" := by
    by_cases h1 : status = "approved"
    · exact Or.inl h1
    by_cases h2 : status = "reviewing"
    · exact Or.inr (Or.inl h2)
    by_cases h3 : status = "rejected"
    · exact Or.inr (Or.inr h3)
    · have b1 : (status == "approved") = false := beq_eq_false_iff_ne.mpr h1
      have b2 : (status == "reviewing") = false := beq_eq_false_iff_ne.mpr h2
      have b3 : (status == "rejected") = false := beq_eq_false_iff_ne.mpr h3
      simp [HOMEWORK_VERDICTS, List.lookup, b1, b2, b3] at hs
  rcases hkey with hk | hk | hk <;> subst hk <;>
    · simp only [HOMEWORK_VERDICTS, List.lookup] at hs
      simp at hs
      subst hs
      simp [parse_status, pyGet, List.lookup, JValue.truthy, dictContains,
        HOMEWORK_VERDICTS, JValue.pyStr, hne]
      decide

theorem C9_witness :
    parse_status (.jdict [("homework_name", .jstr "hw1"), ("status", .jstr "approved")])
      = .ok "Изменился статус проверки работы \"hw1\". Работа проверена: ревьюеру всё понравилось. Ура!" := by
  rw [C9_parse_status "hw1" "approved"
    "Работа проверена: ревьюеру всё понравилось. Ура!" (by decide) rfl]
  rfl

/-- C2 counterexample: when the body of a cycle raises (here a transport
failure) and the operator-notification send inside `handle_error` fails with
an exception that is not of the class `exceptions.TelegramError`, that
second failure escapes the iteration unhandled and the loop terminates. -/
theorem C2_counterexample :
    (run_cycle initial_report initial_report (.transportError "нет сети") 0
      .ok (.otherError "авария")).escaped = some (.otherError "авария") :=
  rfl

/-- C2 amended: for every exception raised in the cycle body, the outer
catch-all logs, notifies and lets the loop continue — provided the operator
notification inside `handle_error` either succeeds or fails with the one
class it catches, `exceptions.TelegramError`; any other failure class during
that notification escapes (see the counterexample). -/
theorem C2_amended (report prev_report : Report) (http : HttpResult) (now : Nat)
    (nO eO : SendOutcome)
    (h : eO = .ok ∨ ∃ m, eO = .telegramError m) :
    (run_cycle report prev_report http now nO eO).escaped = none := by
  have he : handle_error eO = none := by
    rcases h with h | ⟨m, h⟩ <;> subst h <;> rfl
  rcases hb : cycle_body report prev_report http now nO with ⟨e, r, sent⟩ | ⟨r, p, sent⟩ <;>
    simp [run_cycle, hb, he]

theorem C2_witness :
    (run_cycle initial_report initial_report (.transportError "нет сети") 0
      .ok (.telegramError "чат недоступен")).escaped = none :=
  C2_amended initial_report initial_report (.transportError "нет сети") 0 .ok
    (.telegramError "чат недоступен") (Or.inr ⟨"чат недоступен", rfl⟩)

/-- C3 counterexample: a cycle in which the pending report differs from the
previous one on both fields, yet no notification is sent: the submission's
status is not a verdict key, so `parse_status` raises before the Notifier is
reached. -/
theorem C3_counterexample :
    update_report initial_report
        [.jdict [("homework_name", .jstr "hw1"), ("status", .jstr "mystery")]]
      = .ok (⟨.jstr "hw1", .jstr "mystery"⟩,
             .jdict [("homework_name", .jstr "hw1"), ("status", .jstr "mystery")])
    ∧ (⟨.jstr "hw1", .jstr "mystery"⟩ : Report) ≠ initial_report
    ∧ (run_cycle initial_report initial_report
        (.response ⟨200, "OK", "тело", .ok (.jdict
          [("homeworks", .jlist
             [.jdict [("homework_name", .jstr "hw1"), ("status", .jstr "mystery")]]),
           ("current_date", .jnum 1)])⟩)
        0 .ok .ok).sent = [] :=
  ⟨rfl, by decide, rfl⟩

/-- C3 amended: structural equality of the pending and previous report is
the sole trigger: on equality the Notifier is not invoked (and the error
handler does not run); on a difference exactly one notification is sent in
the cycle, provided the message construction (`parse_status` on a truthy
candidate, the stored output otherwise) succeeds — when it raises instead,
no notification is sent (see the counterexample). -/
theorem C3_amended (report prev_report : Report) (http : HttpResult) (now : Nat)
    (nO eO : SendOutcome) (resp : JValue) (hws : List JValue)
    (pend : Report) (hw : JValue)
    (h1 : get_api_answer http now = .ok resp)
    (h2 : check_response resp = .ok hws)
    (h3 : update_report report hws = .ok (pend, hw)) :
    (pend = prev_report →
      (run_cycle report prev_report http now nO eO).sent = []
      ∧ (run_cycle report prev_report http now nO eO).handler_msg = none)
    ∧ (pend ≠ prev_report → ∀ m, build_send hw pend = .ok m →
        (run_cycle report prev_report http now nO eO).sent = [m]) := by
  constructor
  · intro heq
    subst heq
    simp [run_cycle, cycle_body, h1, h2, h3]
  · intro hne m hm
    simp [run_cycle, cycle_body, h1, h2, h3, hne, hm, send_message_eq_none]

theorem C3_witness :
    ((run_cycle initial_report ⟨.jstr "", .jstr "Нет новых статусов."⟩
        http_empty_ok 1000 .ok .ok).sent = []
      ∧ (run_cycle initial_report ⟨.jstr "", .jstr "Нет новых статусов."⟩
          http_empty_ok 1000 .ok .ok).handler_msg = none)
    ∧ (run_cycle initial_report initial_report http_empty_ok 1000 .ok .ok).sent
        = [.jstr "Нет новых статусов."] :=
  ⟨(C3_amended initial_report ⟨.jstr "", .jstr "Нет новых статусов."⟩
      http_empty_ok 1000 .ok .ok empty_ok_response [] ⟨.jstr "", .jstr "Нет новых статусов."⟩
      .jnull rfl rfl rfl).1 rfl,
   (C3_amended initial_report initial_report
      http_empty_ok 1000 .ok .ok empty_ok_response [] ⟨.jstr "", .jstr "Нет новых статусов."⟩
      .jnull rfl rfl rfl).2 (by decide) (.jstr "Нет новых статусов.") rfl⟩

/-- C7: in every cycle whose API call fails (e.g. the API answers 503), both
the pending and the previous report are unchanged at the end of the cycle,
no notification is sent, and the outer handler runs (logs and attempts the
operator notification); the loop then sleeps and retries. -/
theorem C7_api_failure (report prev_report : Report) (http : HttpResult) (now : Nat)
    (nO eO : SendOutcome) (h : ∃ e, get_api_answer http now = .error e) :
    (run_cycle report prev_report http now nO eO).report = report
    ∧ (run_cycle report prev_report http now nO eO).prev_report = prev_report
    ∧ (run_cycle report prev_report http now nO eO).sent = []
    ∧ (run_cycle report prev_report http now nO eO).handler_msg.isSome = true := by
  obtain ⟨e, he⟩ := h
  simp [run_cycle, cycle_body, he]

theorem C7_witness :
    (run_cycle initial_report initial_report
        (.response ⟨503, "Service Unavailable", "занято", .ok .jnull⟩) 42 .ok .ok).report
      = initial_report
    ∧ (run_cycle initial_report initial_report
        (.response ⟨503, "Service Unavailable", "занято", .ok .jnull⟩) 42 .ok .ok).prev_report
      = initial_report
    ∧ (run_cycle initial_report initial_report
        (.response ⟨503, "Service Unavailable", "занято", .ok .jnull⟩) 42 .ok .ok).sent = []
    ∧ (run_cycle initial_report initial_report
        (.response ⟨503, "Service Unavailable", "занято", .ok .jnull⟩) 42 .ok
          .ok).handler_msg.isSome = true :=
  C7_api_failure initial_report initial_report
    (.response ⟨503, "Service Unavailable", "занято", .ok .jnull⟩) 42 .ok .ok
    ⟨.connectionError (connection_error_msg 42), rfl⟩

/-- C8 counterexample: a two-cycle run in which the wall clock has advanced
between the cycles (as it always does across the fixed sleep): the timestamp
sent in the second cycle is 1600, not the first cycle's 1000 — the cursor is
not fixed at process-start time. -/
theorem C8_counterexample :
    (run_loop initial_report initial_report
        [⟨http_empty_ok, 1000, .ok, .ok⟩, ⟨http_empty_ok, 1600, .ok, .ok⟩]).map Prod.fst
      = [1000, 1600]
    ∧ (1600 : Nat) ≠ 1000 :=
  ⟨rfl, by decide⟩

/-- C8 amended: the timestamp passed to the API Client in each cycle is the
current clock reading `int(time.time())` of that cycle — for every run, the
sequence of sent timestamps equals the clock readings of the consumed
inputs, so the response content never influences it, and it changes whenever
the clock advances. -/
theorem C8_amended (r p : Report) (inputs : List CycleInput) :
    (run_loop r p inputs).map Prod.fst
      = (inputs.take (run_loop r p inputs).length).map CycleInput.now := by
  induction inputs generalizing r p with
  | nil => rfl
  | cons i rest ih =>
    simp only [run_loop]
    cases hc : (run_cycle r p i.http i.now i.notifyO i.errO).escaped with
    | some e => simp [hc]
    | none => simp [hc, ih]

end HomeworkBot
